import Mathlib

/-!
Verification of the Streamlit video-transcriber app (src/app.py) against its
natural-language specification.  The session state, the button handlers and
the rendering of the transcript area, the download button and the activity
feed are embedded as pure Lean functions; the two external collaborators
(the speech model and the media downloader) are modelled as oracle
parameters, since the app only observes their return values or the
exceptions they raise.
-/

namespace Transcriber

/-- The per-session state kept in `st.session_state` (app.py lines 17-24). -/
structure AppState where
  uploader_version : Nat
  links_input : String
  transcript : String
  status_log : List String
  deriving Repr, DecidableEq

/-- Python's whitespace set for `str.strip()`. -/
def isPySpace (c : Char) : Bool :=
  c == ' ' || c == '\t' || c == '\n' || c == '\r' || c == '\x0b' || c == '\x0c'

/-- Python `str.strip()`: remove leading and trailing whitespace. -/
def pyStrip (s : String) : String :=
  ⟨((s.data.dropWhile isPySpace).reverse.dropWhile isPySpace).reverse⟩

/-- Split a character list on a separator character (an empty piece between
any two adjacent separators, before a leading one and after a trailing one). -/
def splitOnChar (c : Char) : List Char → List (List Char)
  | [] => [[]]
  | x :: xs =>
    if x = c then [] :: splitOnChar c xs
    else
      match splitOnChar c xs with
      | [] => [[x]]
      | y :: ys => (x :: y) :: ys

/-- `transcribe_media` (app.py lines 32-35): the model returns an ordered
sequence of segments; the function joins the stripped nonempty segment texts
with newlines.  The oracle input is the list of `segment.text` values. -/
def transcribe_media (segments : List String) : String :=
  String.intercalate "\n"
    (segments.filterMap (fun t => if pyStrip t = "" then none else some (pyStrip t)))

/-- Index of the last occurrence of a character in a list, if any. -/
def lastIdxOf (c : Char) : List Char → Option Nat
  | [] => none
  | x :: xs =>
    match lastIdxOf c xs with
    | some i => some (i + 1)
    | none => if x = c then some 0 else none

/-- `os.path.splitext` (posix): split off the final extension of a path,
never splitting a filename made only of leading dots. -/
def splitext (p : String) : String × String :=
  let l := p.data
  let sepI : Int := match lastIdxOf '/' l with | some i => (i : Int) | none => -1
  let dotI : Int := match lastIdxOf '.' l with | some i => (i : Int) | none => -1
  if dotI > sepI then
    let d := dotI.toNat
    let f := (sepI + 1).toNat
    if ((l.drop f).take (d - f)).any (fun c => c ≠ '.') then
      (⟨l.take d⟩, ⟨l.drop d⟩)
    else (p, "")
  else (p, "")

/-- `download_link_media` (app.py lines 38-55).  `extractDownload` models
`ydl.extract_info` followed by `ydl.prepare_filename` (the path of the
originally downloaded file for the given URL); `fsExists` models
`Path.exists` on the scoped temporary directory after yt-dlp's
post-processing ran. -/
def download_link_media (extractDownload : String → String)
    (fsExists : String → Bool) (url : String) : String :=
  let downloaded := extractDownload url
  let base := (splitext downloaded).1
  let mp3_candidate := base ++ ".mp3"
  if fsExists mp3_candidate then mp3_candidate else downloaded

/-- `split_links` (app.py lines 58-59): strip each line, keep nonblank ones. -/
def split_links (text : String) : List String :=
  (((splitOnChar '\n' text.data).map (fun l => pyStrip ⟨l⟩)).filter (fun l => l ≠ ""))

/-- Result of the Transcribe Links handler: the new session state, whether
the "paste at least one link" warning was emitted, and the URLs that were
handed to the collaborators (in order). -/
structure LinksResult where
  state : AppState
  warned : Bool
  fetched : List String
  deriving Repr, DecidableEq

/-- One iteration of the loop at app.py lines 106-114, acting on the pair
(collected, status_log).  `fetch url` models `download_link_media` followed
by `transcribe_media`: `.ok text` is the transcribed text, `.error exc` an
exception raised by either collaborator. -/
def linkStep (fetch : String → Except String String)
    (acc : List String × List String) (url : String) : List String × List String :=
  match fetch url with
  | .ok text =>
      (acc.1 ++ ["### Source: " ++ url ++ "\n" ++ text],
       acc.2 ++ ["✅ Transcribed link: " ++ url])
  | .error exc =>
      (acc.1, acc.2 ++ ["❌ Failed link: " ++ url ++ " (" ++ exc ++ ")"])

/-- The Transcribe Links handler (app.py lines 98-116). -/
def transcribeLinks (fetch : String → Except String String)
    (s : AppState) : LinksResult :=
  let links := split_links s.links_input
  if links = [] then
    { state := s, warned := true, fetched := [] }
  else
    let res := links.foldl (linkStep fetch) ([], s.status_log)
    { state :=
        { s with
          status_log := res.2
          transcript := if res.1 = [] then s.transcript
                        else String.intercalate "\n\n" res.1 }
      warned := false
      fetched := links }

/-- The Clear Links + Drag Content handler (app.py lines 118-122).  The
text_area at line 74 is instantiated with key "links_input" earlier in the
same script run, so the assignment `st.session_state.links_input = ""` at
line 119 raises StreamlitAPIException (Session State forbids modifying a
widget-keyed value after that widget is instantiated).  The handler aborts
there: the session state is returned unchanged together with the exception,
and the uploader-version bump, the log append and the rerun at lines
120-122 never execute. -/
def clearLinksRun (s : AppState) : AppState × Option String :=
  (s, some "StreamlitAPIException: st.session_state.links_input cannot be modified after the widget with key links_input is instantiated")

/-- The Clear Transcript handler (app.py lines 124-126). -/
def clearTranscript (s : AppState) : AppState :=
  { s with
    transcript := ""
    status_log := s.status_log ++ ["🧼 Cleared transcript"] }

/-- The read-only transcript text area (app.py lines 130-135) shows exactly
the session transcript. -/
def renderTranscriptArea (s : AppState) : String :=
  s.transcript

/-- The download button rendered at app.py lines 138-143. -/
structure DownloadControl where
  label : String
  data : ByteArray
  fileName : String
  mime : String

/-- Rendering of the download button (app.py lines 137-143): offered only
when the transcript is nonempty (Python string truthiness), with the
UTF-8 bytes of the transcript, named transcript.txt. -/
def renderDownload (transcript : String) : Option DownloadControl :=
  if transcript = "" then none
  else some
    { label := "Download transcript (.txt)"
      data := transcript.toUTF8
      fileName := "transcript.txt"
      mime := "text/plain" }

/-- The activity feed (app.py lines 145-148): the last 10 log entries,
displayed most recent first (`reversed(status_log[-10:])`). -/
def activityFeed (log : List String) : List String :=
  (log.drop (log.length - 10)).reverse

/-- The log entry the loop body writes for one url. -/
def logEntryFor (fetch : String → Except String String) (url : String) : String :=
  match fetch url with
  | .ok _ => "✅ Transcribed link: " ++ url
  | .error exc => "❌ Failed link: " ++ url ++ " (" ++ exc ++ ")"

/-- The transcript section collected for one url, when it succeeds. -/
def sectionFor (fetch : String → Except String String) (url : String) : Option String :=
  match fetch url with
  | .ok text => some ("### Source: " ++ url ++ "\n" ++ text)
  | .error _ => none

end Transcriber

namespace Transcriber

/-- C8: the clear-links half of the claim contradicts the code.  Pressing
Clear Links + Drag Content raises StreamlitAPIException at app.py line 119,
so the link text is not reset, the uploader version is not changed and no
log entry is appended; the Clear Transcript half does behave as claimed. -/
theorem clear_links_crash (s : AppState) :
    (clearLinksRun s).1 = s ∧
    (clearLinksRun s).2.isSome = true ∧
    (clearLinksRun s).1.links_input = s.links_input ∧
    (clearLinksRun s).1.uploader_version = s.uploader_version ∧
    (clearLinksRun s).1.status_log = s.status_log ∧
    (clearTranscript s).transcript = "" ∧
    (clearTranscript s).status_log = s.status_log ++ ["🧼 Cleared transcript"] :=
  ⟨rfl, rfl, rfl, rfl, rfl, rfl, rfl⟩

/-- C10: the two clear handlers are disjoint in effect: Clear Transcript
leaves the link text and uploader version unchanged; the clear-links handler
(which aborts on the StreamlitAPIException raised at app.py line 119) leaves
the transcript unchanged; and neither removes or reorders existing
status-log entries, which persist as an unchanged prefix. -/
theorem clear_handlers_frame (s : AppState) :
    (clearTranscript s).links_input = s.links_input ∧
    (clearTranscript s).uploader_version = s.uploader_version ∧
    (clearLinksRun s).1.transcript = s.transcript ∧
    (clearTranscript s).status_log.take s.status_log.length = s.status_log ∧
    (clearLinksRun s).1.status_log.take s.status_log.length = s.status_log := by
  refine ⟨rfl, rfl, rfl, ?_, ?_⟩ <;>
    simp [clearTranscript, clearLinksRun, List.take_left]

/-- C9: the download button is rendered iff the transcript is nonempty. -/
theorem download_offered_iff_nonempty (t : String) :
    (renderDownload t).isSome = true ↔ t ≠ "" := by
  unfold renderDownload
  split <;> simp_all

/-- C6: whenever the download button is rendered, its bytes are the UTF-8
encoding of the very string shown in the transcript text area, under the
name transcript.txt. -/
theorem download_bytes_match (s : AppState) (c : DownloadControl)
    (h : renderDownload s.transcript = some c) :
    c.data = (renderTranscriptArea s).toUTF8 ∧ c.fileName = "transcript.txt" := by
  unfold renderDownload at h
  split at h
  · exact absurd h (by simp)
  · rw [Option.some_inj] at h
    rw [← h]
    exact ⟨rfl, rfl⟩

/-- Concrete session state with a nonempty transcript, for the C6 witness. -/
def s6 : AppState :=
  { uploader_version := 0, links_input := "", transcript := "hi", status_log := [] }

/-- The download control rendered for `s6`. -/
def dc6 : DownloadControl :=
  { label := "Download transcript (.txt)", data := ("hi" : String).toUTF8
    fileName := "transcript.txt", mime := "text/plain" }

/-- Witness for C6 at the concrete state `s6`. -/
theorem download_bytes_match_witness :
    dc6.data = (renderTranscriptArea s6).toUTF8 ∧ dc6.fileName = "transcript.txt" :=
  download_bytes_match s6 dc6 rfl

/-- C3: the download step returns the mp3-converted file (the downloaded
file's base name with the mp3 extension) when it exists on disk, and
otherwise falls back to the originally downloaded file. -/
theorem download_link_media_fallback (ydl : String → String)
    (fs : String → Bool) (url : String) :
    (fs ((splitext (ydl url)).1 ++ ".mp3") = true →
      download_link_media ydl fs url = (splitext (ydl url)).1 ++ ".mp3") ∧
    (fs ((splitext (ydl url)).1 ++ ".mp3") = false →
      download_link_media ydl fs url = ydl url) := by
  unfold download_link_media
  constructor <;> intro h <;> simp [h]

/-- Witness for C3: for a downloaded file "clip.webm" whose mp3 conversion
exists, the path returned is "clip.mp3"; when it is absent, "clip.webm". -/
theorem download_link_media_fallback_witness :
    download_link_media (fun _ => "clip.webm") (fun _ => true) "u"
      = (splitext "clip.webm").1 ++ ".mp3" ∧
    download_link_media (fun _ => "clip.webm") (fun _ => false) "u" = "clip.webm" :=
  ⟨(download_link_media_fallback (fun _ => "clip.webm") (fun _ => true) "u").1 rfl,
   (download_link_media_fallback (fun _ => "clip.webm") (fun _ => false) "u").2 rfl⟩

/-- C4: transcription output is the segment texts trimmed of surrounding
whitespace, empty-after-trim segments dropped, joined in order by newlines. -/
theorem transcribe_media_spec (segments : List String) :
    transcribe_media segments =
      String.intercalate "\n" ((segments.map pyStrip).filter (fun t => t ≠ "")) := by
  unfold transcribe_media
  congr 1
  induction segments with
  | nil => rfl
  | cons x xs ih =>
    by_cases hx : pyStrip x = "" <;>
      simp [List.filterMap_cons, List.filter_cons, hx, ih]

end Transcriber

namespace Transcriber

/-- The loop over the pasted links accumulates exactly one collected section
per successful link and one log entry per link, in order. -/
theorem foldl_linkStep (fetch : String → Except String String) (ls : List String)
    (acc : List String × List String) :
    ls.foldl (linkStep fetch) acc =
      (acc.1 ++ ls.filterMap (sectionFor fetch), acc.2 ++ ls.map (logEntryFor fetch)) := by
  induction ls generalizing acc with
  | nil => simp
  | cons x xs ih =>
    rw [List.foldl_cons, ih]
    rw [List.filterMap_cons, List.map_cons]
    cases hfx : fetch x <;>
      simp [linkStep, sectionFor, logEntryFor, hfx]

/-- A success log entry is never equal to a failure log entry. -/
theorem success_entry_ne_failure_entry (u1 u2 exc : String) :
    "✅ Transcribed link: " ++ u1 ≠ "❌ Failed link: " ++ u2 ++ " (" ++ exc ++ ")" := by
  intro h
  have h1 : ("✅ Transcribed link: " ++ u1).data.head? = some '✅' := rfl
  rw [h] at h1
  have h2 : ("❌ Failed link: " ++ u2 ++ " (" ++ exc ++ ")").data.head? = some '❌' := rfl
  rw [h2] at h1
  exact absurd h1 (by decide)

/-- C1: on a batch with at least one failing and at least one succeeding
link, the new transcript is exactly the successful links' sections in input
order (each headed by its source URL, joined by a blank line), the status
log gains exactly one entry per link in input order, and failure entries
are distinguishable from success entries. -/
theorem transcribe_links_batch (fetch : String → Except String String) (s : AppState)
    (_hfail : ∃ u ∈ split_links s.links_input, ∃ e, fetch u = .error e)
    (hok : ∃ u ∈ split_links s.links_input, ∃ t, fetch u = .ok t) :
    (transcribeLinks fetch s).state.transcript =
      String.intercalate "\n\n" ((split_links s.links_input).filterMap (sectionFor fetch)) ∧
    (transcribeLinks fetch s).state.status_log =
      s.status_log ++ (split_links s.links_input).map (logEntryFor fetch) ∧
    (∀ u t, fetch u = .ok t → logEntryFor fetch u = "✅ Transcribed link: " ++ u) ∧
    (∀ u e, fetch u = .error e →
      logEntryFor fetch u = "❌ Failed link: " ++ u ++ " (" ++ e ++ ")") ∧
    (∀ u1 u2 e, "✅ Transcribed link: " ++ u1 ≠ "❌ Failed link: " ++ u2 ++ " (" ++ e ++ ")") := by
  obtain ⟨u, hu, t, hut⟩ := hok
  have hls : split_links s.links_input ≠ [] := by
    intro h0
    rw [h0] at hu
    exact absurd hu (List.not_mem_nil u)
  have hne : (split_links s.links_input).filterMap (sectionFor fetch) ≠ [] := by
    intro h0
    rw [List.filterMap_eq_nil_iff] at h0
    have hu0 := h0 u hu
    unfold sectionFor at hu0
    rw [hut] at hu0
    exact absurd hu0 (by simp)
  refine ⟨?_, ?_, ?_, ?_, success_entry_ne_failure_entry⟩
  · simp only [transcribeLinks]
    rw [if_neg hls, foldl_linkStep]
    simp [hne]
  · simp only [transcribeLinks]
    rw [if_neg hls, foldl_linkStep]
  · intro u1 t1 h1
    unfold logEntryFor
    rw [h1]
  · intro u1 e1 h1
    unfold logEntryFor
    rw [h1]

/-- C2: the transcript is replaced only when at least one link succeeded
(when every link fails it is left unchanged), and when it is replaced the
new value is computed wholesale from the links and the collaborators alone,
never merged with the previous transcript. -/
theorem transcript_replacement (fetch : String → Except String String) (s : AppState) :
    ((∀ u ∈ split_links s.links_input, ∃ e, fetch u = .error e) →
      (transcribeLinks fetch s).state.transcript = s.transcript) ∧
    ((∃ u ∈ split_links s.links_input, ∃ t, fetch u = .ok t) →
      (transcribeLinks fetch s).state.transcript =
        String.intercalate "\n\n" ((split_links s.links_input).filterMap (sectionFor fetch))) := by
  constructor
  · intro hall
    by_cases hls : split_links s.links_input = []
    · simp only [transcribeLinks]
      rw [if_pos hls]
    · have h0 : (split_links s.links_input).filterMap (sectionFor fetch) = [] := by
        rw [List.filterMap_eq_nil_iff]
        intro a ha
        obtain ⟨e, he⟩ := hall a ha
        unfold sectionFor
        rw [he]
      simp only [transcribeLinks]
      rw [if_neg hls, foldl_linkStep]
      simp [h0]
  · intro hok
    obtain ⟨u, hu, t, hut⟩ := hok
    have hls : split_links s.links_input ≠ [] := by
      intro h0
      rw [h0] at hu
      exact absurd hu (List.not_mem_nil u)
    have hne : (split_links s.links_input).filterMap (sectionFor fetch) ≠ [] := by
      intro h0
      rw [List.filterMap_eq_nil_iff] at h0
      have hu0 := h0 u hu
      unfold sectionFor at hu0
      rw [hut] at hu0
      exact absurd hu0 (by simp)
    simp only [transcribeLinks]
    rw [if_neg hls, foldl_linkStep]
    simp [hne]

/-- C7: when no line of the pasted text is nonblank, pressing Transcribe
Links only warns: the state is unchanged and no collaborator is invoked. -/
theorem empty_links_warning (fetch : String → Except String String) (s : AppState)
    (h : ∀ line ∈ splitOnChar '\n' s.links_input.data, pyStrip ⟨line⟩ = "") :
    transcribeLinks fetch s = { state := s, warned := true, fetched := [] } := by
  have hl : split_links s.links_input = [] := by
    unfold split_links
    rw [List.filter_eq_nil_iff]
    intro a ha
    rw [List.mem_map] at ha
    obtain ⟨x, hx, hxa⟩ := ha
    rw [← hxa]
    simp [h x hx]
  simp only [transcribeLinks]
  rw [if_pos hl]

end Transcriber

namespace Transcriber

/-- C5: the rendered activity feed holds the `min length 10` most recent
log entries, most recent first: its i-th displayed item is the i-th entry
from the end of the log. -/
theorem activity_feed_spec (log : List String) :
    (activityFeed log).length = min log.length 10 ∧
    ∀ i, i < (activityFeed log).length →
      (activityFeed log)[i]? = log[log.length - 1 - i]? := by
  unfold activityFeed
  constructor
  · rw [List.length_reverse, List.length_drop]
    omega
  · intro i hi
    rw [List.length_reverse, List.length_drop] at hi
    rw [List.getElem?_reverse (by rw [List.length_drop]; omega)]
    rw [List.getElem?_drop]
    congr 1
    rw [List.length_drop]
    omega

/-- A 12-entry log used as the C5 witness. -/
def logW : List String :=
  ["m0", "m1", "m2", "m3", "m4", "m5", "m6", "m7", "m8", "m9", "m10", "m11"]

/-- Witness for C5 on a 12-entry log: the first displayed item is the most
recent log entry. -/
theorem activity_feed_spec_witness :
    (activityFeed logW)[0]? = logW[logW.length - 1 - 0]? :=
  (activity_feed_spec logW).2 0 (by decide)

/-- A collaborator oracle that fails on every URL, for the C2 witness. -/
def fetchFailW : String → Except String String := fun _ => .error "boom"

/-- A collaborator oracle that succeeds on "a" and fails elsewhere, for the
C1 witness. -/
def fetchMixW : String → Except String String :=
  fun u => if u = "a" then .ok "text-a" else .error "boom"

/-- A concrete session state with two pasted links, for the C1 witness. -/
def sW1 : AppState :=
  { uploader_version := 0, links_input := "a\nb", transcript := "old"
    status_log := ["e0"] }

/-- A concrete session state with two pasted links and a transcript to be
kept, for the C2 witness. -/
def sW2 : AppState :=
  { uploader_version := 0, links_input := "a\nb", transcript := "keep"
    status_log := [] }

/-- A concrete session state whose pasted text has only blank lines, for
the C7 witness. -/
def sW7 : AppState :=
  { uploader_version := 3, links_input := "  \n\n ", transcript := "t"
    status_log := ["e0"] }

/-- Witness for C1 at the mixed-outcome oracle and the two-link state. -/
theorem transcribe_links_batch_witness :
    (transcribeLinks fetchMixW sW1).state.transcript =
      String.intercalate "\n\n" ((split_links sW1.links_input).filterMap (sectionFor fetchMixW)) ∧
    (transcribeLinks fetchMixW sW1).state.status_log =
      sW1.status_log ++ (split_links sW1.links_input).map (logEntryFor fetchMixW) ∧
    logEntryFor fetchMixW "a" = "✅ Transcribed link: " ++ "a" ∧
    logEntryFor fetchMixW "b" = "❌ Failed link: " ++ "b" ++ " (" ++ "boom" ++ ")" ∧
    "✅ Transcribed link: " ++ "a" ≠ "❌ Failed link: " ++ "b" ++ " (" ++ "boom" ++ ")" := by
  have h := transcribe_links_batch fetchMixW sW1
    ⟨"b", by decide, "boom", rfl⟩ ⟨"a", by decide, "text-a", rfl⟩
  exact ⟨h.1, h.2.1, h.2.2.1 "a" "text-a" rfl, h.2.2.2.1 "b" "boom" rfl,
    h.2.2.2.2 "a" "b" "boom"⟩

/-- Witness for C2: with the all-failing oracle the transcript is kept, and
with the mixed oracle it is wholly recomputed from the links. -/
theorem transcript_replacement_witness :
    (transcribeLinks fetchFailW sW2).state.transcript = sW2.transcript ∧
    (transcribeLinks fetchMixW sW2).state.transcript =
      String.intercalate "\n\n" ((split_links sW2.links_input).filterMap (sectionFor fetchMixW)) :=
  ⟨(transcript_replacement fetchFailW sW2).1 (fun _ _ => ⟨"boom", rfl⟩),
   (transcript_replacement fetchMixW sW2).2 ⟨"a", by decide, "text-a", rfl⟩⟩

/-- Witness for C7 at a state whose pasted text is all blank lines. -/
theorem empty_links_warning_witness :
    transcribeLinks fetchFailW sW7 = { state := sW7, warned := true, fetched := [] } :=
  empty_links_warning fetchFailW sW7 (by decide)

end Transcriber
